import Mathlib

set_option linter.unusedVariables false

/- Shallow embedding of src/config.c of the awesome window manager
   (configuration binding).  Machine integers become Nat or Int (all masks
   are ORs of bits below 2^8, so no overflow arises anywhere); C strings
   become Lean String (no embedded NUL byte occurs in any relevant string);
   a possibly-NULL C string pointer becomes Option String; the opaque
   function pointers stored in the registries become constructors of closed
   inductive types; fatal termination (eprint) becomes Except.error. -/

/- X11 modifier mask constants, from X.h: bit i is 1 shifted left i times. -/

def ShiftMask : Nat := 1

def LockMask : Nat := 2

def ControlMask : Nat := 4

def Mod1Mask : Nat := 8

def Mod2Mask : Nat := 16

def Mod3Mask : Nat := 32

def Mod4Mask : Nat := 64

def Mod5Mask : Nat := 128

/- Layout arrangement functions (declared in layouts/tile.h, max.h,
   floating.h); opaque capabilities, distinct function pointers. -/

inductive LayoutFunc
  | layout_tile
  | layout_tileleft
  | layout_max
  | layout_floating
  deriving DecidableEq, Repr

/- UI-bindable callback functions; opaque capabilities, distinct pointers. -/

inductive Uicb
  | uicb_spawn
  | uicb_exec
  | uicb_killclient
  | uicb_moveresize
  | uicb_settrans
  | uicb_setborder
  | uicb_swapnext
  | uicb_swapprev
  | uicb_tag
  | uicb_togglefloating
  | uicb_toggleview
  | uicb_toggletag
  | uicb_view
  | uicb_tag_prev_selected
  | uicb_tag_viewprev
  | uicb_tag_viewnext
  | uicb_setlayout
  | uicb_focusnext
  | uicb_focusprev
  | uicb_togglemax
  | uicb_toggleverticalmax
  | uicb_togglehorizontalmax
  | uicb_zoom
  | uicb_setmwfact
  | uicb_setnmaster
  | uicb_setncol
  | uicb_focusnextscreen
  | uicb_focusprevscreen
  | uicb_movetoscreen
  | uicb_quit
  | uicb_togglebar
  deriving DecidableEq, Repr

/- config.c lines 59-70: list of key names and corresponding X11 mask codes.
   Unlike LayoutsList and KeyfuncList below, this table ends with the real
   entry ("None", 0) and has NO NULL-name sentinel, even though the scan in
   key_mask_lookup terminates only on such a sentinel.  The list here holds
   exactly the 9 declared entries; the consequences of the missing
   terminator are modelled in key_mask_lookup below. -/

def KeyModList : List (String × Nat) :=
  [("Shift", ShiftMask),
   ("Lock", LockMask),
   ("Control", ControlMask),
   ("Mod1", Mod1Mask),
   ("Mod2", Mod2Mask),
   ("Mod3", Mod3Mask),
   ("Mod4", Mod4Mask),
   ("Mod5", Mod5Mask),
   ("None", 0)]

/- config.c lines 73-80: available layouts, NULL sentinel dropped. -/

def LayoutsList : List (String × LayoutFunc) :=
  [("tile", LayoutFunc.layout_tile),
   ("tileleft", LayoutFunc.layout_tileleft),
   ("max", LayoutFunc.layout_max),
   ("floating", LayoutFunc.layout_floating)]

/- config.c lines 83-124: available UI bindable callbacks, sentinel dropped. -/

def KeyfuncList : List (String × Uicb) :=
  [("spawn", Uicb.uicb_spawn),
   ("exec", Uicb.uicb_exec),
   ("killclient", Uicb.uicb_killclient),
   ("moveresize", Uicb.uicb_moveresize),
   ("settrans", Uicb.uicb_settrans),
   ("setborder", Uicb.uicb_setborder),
   ("swapnext", Uicb.uicb_swapnext),
   ("swapprev", Uicb.uicb_swapprev),
   ("tag", Uicb.uicb_tag),
   ("togglefloating", Uicb.uicb_togglefloating),
   ("toggleview", Uicb.uicb_toggleview),
   ("toggletag", Uicb.uicb_toggletag),
   ("view", Uicb.uicb_view),
   ("view_tag_prev_selected", Uicb.uicb_tag_prev_selected),
   ("view_tag_previous", Uicb.uicb_tag_viewprev),
   ("view_tag_next", Uicb.uicb_tag_viewnext),
   ("setlayout", Uicb.uicb_setlayout),
   ("focusnext", Uicb.uicb_focusnext),
   ("focusprev", Uicb.uicb_focusprev),
   ("togglemax", Uicb.uicb_togglemax),
   ("toggleverticalmax", Uicb.uicb_toggleverticalmax),
   ("togglehorizontalmax", Uicb.uicb_togglehorizontalmax),
   ("zoom", Uicb.uicb_zoom),
   ("setmwfact", Uicb.uicb_setmwfact),
   ("setnmaster", Uicb.uicb_setnmaster),
   ("setncol", Uicb.uicb_setncol),
   ("focusnextscreen", Uicb.uicb_focusnextscreen),
   ("focusprevscreen", Uicb.uicb_focusprevscreen),
   ("movetoscreen", Uicb.uicb_movetoscreen),
   ("quit", Uicb.uicb_quit),
   ("togglebar", Uicb.uicb_togglebar)]

/- config.c lines 130-141, key_mask_lookup.  A NULL argument skips the loop
   and returns 0 (defined).  Otherwise the loop scans entries in declaration
   order until one whose name strcmp-equals the argument is found and
   returned (the defined first-match path, List.find? here), or until an
   entry with a NULL name is reached -- but KeyModList has no such sentinel,
   so when no entry matches, the scan runs past the end of the table: an
   out-of-bounds read whose outcome the source does not define (whatever
   bytes follow the table get interpreted as further entries).  The
   embedding returns none for that path: none means "no defined result",
   not a negative-result signal. -/

def key_mask_lookup (keyname : Option String) : Option Nat :=
  match keyname with
  | some s =>
    match KeyModList.find? (fun e => e.1 == s) with
    | some e => some e.2
    | none => none
  | none => some 0

/- config.c lines 149-160, name_func_lookup: scan the given table in
   declaration order, return the function of the first entry whose name
   strcmp-equals the argument; NULL (none) when the argument is NULL or
   nothing matches.  (The C also guards against a NULL table pointer; a Lean
   list is never null.) -/

def name_func_lookup {α : Type} (funcname : Option String) (list : List (String × α)) :
    Option α :=
  match funcname with
  | some s => (list.find? (fun e => e.1 == s)).map (fun e => e.2)
  | none => none

/- C strncmp equality on NUL-free strings: strncmp(s, t, n) == 0 holds
   exactly when the first n characters (or all of them, when a string is
   shorter) agree, i.e. when the length-n prefixes of the char lists agree. -/

def a_strncmp_eq (s t : String) (n : Nat) : Bool :=
  s.toList.take n == t.toList.take n

/- Statusbar position enum (statusbar.h). -/

inductive BarPosition
  | BarTop
  | BarBot
  | BarOff
  deriving DecidableEq, Repr

/- config.c lines 327-337: the statusbar position string is compared with
   a_strncmp(tmp, "off", 6) and then a_strncmp(tmp, "bottom", 6); anything
   else gives BarTop.  (The NULL guard on tmp is dropped: cfg_getstr has the
   non-NULL default "top", so tmp is never NULL.) -/

def statusbar_position_of (tmp : String) : BarPosition :=
  if a_strncmp_eq tmp "off" 6 then BarPosition.BarOff
  else if a_strncmp_eq tmp "bottom" 6 then BarPosition.BarBot
  else BarPosition.BarTop

/- ------------------------------------------------------------------ -/
/- The parsed configuration tree handed over by libconfuse, shaped by the
   cfg_opt_t tables of config.c lines 170-254.  A field that the document
   does not set is none; the cfg_get* accessors substitute the declared
   default (Option.getD below), which is exactly libconfuse's behaviour. -/

structure CfgGeneral where
  border : Option Int
  snap : Option Int
  resize_hints : Option Bool
  opacity_unfocused : Option Int
  focus_move_pointer : Option Bool
  font : Option String
  deriving DecidableEq, Repr

structure CfgColors where
  normal_border : Option String
  normal_bg : Option String
  normal_fg : Option String
  focus_border : Option String
  focus_bg : Option String
  focus_fg : Option String
  deriving DecidableEq, Repr

structure CfgStatusbar where
  position : Option String
  deriving DecidableEq, Repr

/- One titled tag sub-section (tag_opts, lines 195-199).  Its layout field
   (default "tile") is declared in the schema but never read by
   parse_config; it is kept here for fidelity to the declared tree. -/

structure CfgTagSec where
  title : String
  layout : Option String
  deriving DecidableEq, Repr

/- One titled layout sub-section (layout_opts, lines 205-209). -/

structure CfgLayoutSec where
  title : String
  symbol : Option String
  deriving DecidableEq, Repr

/- The layouts section (layouts_opts, lines 210-217). -/

structure CfgLayouts where
  layout : List CfgLayoutSec
  mwfact : Option Rat
  nmaster : Option Int
  ncol : Option Int
  deriving DecidableEq, Repr

/- One rule sub-section (rule_opts, lines 218-224). -/

structure CfgRuleSec where
  name : Option String
  tags : Option String
  float : Option Bool
  deriving DecidableEq, Repr

/- One key sub-section (key_opts, lines 230-237).  modkey is a string list
   whose declared default is the one-element list holding "Mod4"; arg has
   declared default NULL, so an absent arg stays none (distinct from ""). -/

structure CfgKeySec where
  modkey : Option (List String)
  key : Option String
  command : Option String
  arg : Option String
  deriving DecidableEq, Repr

/- The keys section (keys_opts, lines 238-243). -/

structure CfgKeys where
  modkey : Option String
  key : List CfgKeySec
  deriving DecidableEq, Repr

/- The whole tree (opts, lines 244-254). -/

structure CfgTree where
  general : CfgGeneral
  colors : CfgColors
  statusbar : CfgStatusbar
  tags : List CfgTagSec
  layouts : CfgLayouts
  rules : List CfgRuleSec
  keys : CfgKeys
  deriving DecidableEq, Repr

/- ------------------------------------------------------------------ -/
/- Bound runtime state (awesome_config in awesome.h plus the DC colour and
   font slots that parse_config fills).  Colour and font acquisition are
   external collaborators; the bound value recorded here is the string
   handed to them.  A Tag's layout pointer, set to the awesomeconf layouts
   base pointer (the address of element 0), is modelled as the index 0. -/

structure Layout where
  symbol : Option String
  arrange : Option LayoutFunc
  deriving DecidableEq, Repr

structure Rule where
  prop : String
  tags : Option String
  isfloating : Bool
  deriving DecidableEq, Repr

structure Tag where
  name : String
  selected : Bool
  was_selected : Bool
  layout : Nat
  deriving DecidableEq, Repr

structure Key where
  mod : Nat
  keysym : Nat
  func : Option Uicb
  arg : Option String
  deriving DecidableEq, Repr

structure awesome_config where
  borderpx : Int
  snap : Int
  resize_hints : Bool
  opacity_unfocused : Int
  focus_move_pointer : Bool
  font : String
  normal_border : String
  normal_bg : String
  normal_fg : String
  focus_border : String
  focus_bg : String
  focus_fg : String
  statusbar_default_position : BarPosition
  layouts : List Layout
  mwfact : Rat
  nmaster : Int
  ncol : Int
  rules : List Rule
  tags : List Tag
  modkey : Nat
  numlockmask : Nat
  keys : List Key
  deriving DecidableEq, Repr

/- ------------------------------------------------------------------ -/
/- config.c lines 421-440, get_numlockmask: scan the 8 modifier indices and
   every slot of each; whenever a slot holds the keycode bound to Num_Lock,
   overwrite mask with the bit of that index (no break, no OR).  The X
   modifier keymap and the keycode XKeysymToKeycode yields for XK_Num_Lock
   are parameters: the map has 8 * max_keypermod entries addressed as
   modifiermap (i * max_keypermod + j). -/

structure XModifierKeymap where
  max_keypermod : Nat
  modifiermap : Nat → Nat

def get_numlockmask (modmap : XModifierKeymap) (numlock_keycode : Nat) : Nat :=
  (List.range 8).foldl
    (fun mask i =>
      (List.range modmap.max_keypermod).foldl
        (fun mask j =>
          if modmap.modifiermap (i * modmap.max_keypermod + j) == numlock_keycode
          then 1 <<< i
          else mask)
        mask)
    0

/- Whether modifier index i has some slot holding the Num_Lock keycode. -/

def lock_slot_has (modmap : XModifierKeymap) (numlock_keycode : Nat) (i : Nat) : Bool :=
  (List.range modmap.max_keypermod).any
    (fun j => modmap.modifiermap (i * modmap.max_keypermod + j) == numlock_keycode)

/- Modelled from the spec (section 4.4 / claim C5): the spec says the
   resolver returns the FIRST modifier-index bit found bound to the
   Num_Lock keycode, scanning indices in increasing order, or 0 if none. -/

def spec_lockmask_first (modmap : XModifierKeymap) (numlock_keycode : Nat) : Nat :=
  match ((List.range 8).filter (lock_slot_has modmap numlock_keycode)).head? with
  | some i => 1 <<< i
  | none => 0

/- What the code actually computes: the LAST matching index bit (the fold
   keeps overwriting), phrased independently of the fold. -/

def lockmask_last (modmap : XModifierKeymap) (numlock_keycode : Nat) : Nat :=
  match ((List.range 8).filter (lock_slot_has modmap numlock_keycode)).getLast? with
  | some i => 1 <<< i
  | none => 0

/- ------------------------------------------------------------------ -/
/- The per-section binding steps of parse_config (lines 299-414), named
   after the comment blocks of the C function and composed below. -/

/- Lines 341-354, loop body: resolve the sub-section title against
   LayoutsList; on failure keep the entry with NULL symbol and NULL arrange
   and continue; on success strdup the symbol (default "???"). -/

def bind_layout_entry (s : CfgLayoutSec) : Layout :=
  match name_func_lookup (some s.title) LayoutsList with
  | none => { symbol := none, arrange := none }
  | some f => { symbol := some (s.symbol.getD "???"), arrange := some f }

def bind_layouts (ls : List CfgLayoutSec) : List Layout :=
  ls.map bind_layout_entry

/- Lines 341-363: build the layouts array, then abort (eprint) when
   nlayouts is 0 or the current layout (the first entry) has no arrange.
   The C condition short-circuits, so the empty case never dereferences. -/

def bind_layouts_checked (ls : List CfgLayoutSec) : Except String (List Layout) :=
  let layouts := bind_layouts ls
  if ls.length = 0 then Except.error "awesome: fatal: no default layout available"
  else
    match layouts.head? with
    | some l0 =>
      if l0.arrange = none then Except.error "awesome: fatal: no default layout available"
      else Except.ok layouts
    | none => Except.error "awesome: fatal: no default layout available"

/- Lines 369-377, rule loop body: copy name and tags (defaults ""), then
   normalize a zero-length tags string to NULL; copy the float flag. -/

def bind_rule (r : CfgRuleSec) : Rule :=
  let tags := r.tags.getD ""
  { prop := r.name.getD ""
    tags := if tags.length = 0 then none else some tags
    isfloating := r.float.getD false }

/- Lines 383-390, tag loop body: the tag name is the sub-section title;
   selected and was_selected start False; the layout pointer is set to
   awesomeconf layouts, the address of element 0 (index 0 here). -/

def bind_tag (s : CfgTagSec) : Tag :=
  { name := s.title, selected := false, was_selected := false, layout := 0 }

/- Lines 381-397: build the tags array, abort (eprint) when ntags is 0,
   then force selected and was_selected on index 0 only. -/

def bind_tags_checked (ts : List CfgTagSec) : Except String (List Tag) :=
  let tags := ts.map bind_tag
  if ts.length = 0 then Except.error "awesome: fatal: no tags found in configuration file"
  else
    match tags with
    | [] => Except.ok []
    | t :: rest => Except.ok ({ t with selected := true, was_selected := true } :: rest)

/- Lines 400-401: tmp_key = key_mask_lookup(modkey string); modkey is
   tmp_key when non-zero, Mod4Mask otherwise.  When the lookup has no
   defined result (unmatched name, out-of-bounds scan), neither has the
   bound primary modifier. -/

def modkey_bind (s : String) : Option Nat :=
  (key_mask_lookup (some s)).map (fun tmp_key => if tmp_key ≠ 0 then tmp_key else Mod4Mask)

/- Lines 409-410: keys[i].mod starts at 0 (p_new is calloc) and each listed
   modifier name ORs in its key_mask_lookup result; as soon as one lookup
   has no defined result, the accumulated mask has none either. -/

def key_mod_mask (names : List String) : Option Nat :=
  names.foldl
    (fun acc s =>
      match acc, key_mask_lookup (some s) with
      | some a, some b => some (a ||| b)
      | _, _ => none)
    (some 0)

/- Lines 406-414, key loop body.  ksl stands for the external
   XStringToKeysym collaborator.  The binding is defined exactly when the
   modifier mask is. -/

def bind_key (ksl : String → Nat) (k : CfgKeySec) : Option Key :=
  (key_mod_mask (k.modkey.getD ["Mod4"])).map
    (fun m =>
      { mod := m
        keysym := ksl (k.key.getD "None")
        func := name_func_lookup (some (k.command.getD "")) KeyfuncList
        arg := k.arg })

/- config.c lines 167-419, parse_config, the pure binding core.  Path
   construction, the statustext banner, display bookkeeping and the
   external font and colour acquisitions (whose failures are external
   ResourceFatal aborts) are I/O and carry no bound state beyond the
   strings recorded here.  modmap and numlock_keycode feed
   get_numlockmask; ksl is XStringToKeysym.  Except.error models the fatal
   eprint aborts; the outer none models the runs whose behaviour the source
   leaves undefined (a modifier-name lookup overrunning the sentinel-less
   KeyModList in the keys stage, which in the C control flow comes after
   both fatal checks). -/

def parse_config (t : CfgTree) (modmap : XModifierKeymap) (numlock_keycode : Nat)
    (ksl : String → Nat) : Option (Except String awesome_config) :=
  match bind_layouts_checked t.layouts.layout with
  | Except.error e => some (Except.error e)
  | Except.ok layouts =>
    match bind_tags_checked t.tags with
    | Except.error e => some (Except.error e)
    | Except.ok tags =>
      match modkey_bind (t.keys.modkey.getD "Mod4") with
      | none => none
      | some modkey =>
        match t.keys.key.mapM (bind_key ksl) with
        | none => none
        | some keys =>
          some (Except.ok
        { borderpx := t.general.border.getD 1
          snap := t.general.snap.getD 8
          resize_hints := t.general.resize_hints.getD false
          opacity_unfocused := t.general.opacity_unfocused.getD 100
          focus_move_pointer := t.general.focus_move_pointer.getD false
          font := t.general.font.getD "mono-12"
          normal_border := t.colors.normal_border.getD "#111111"
          normal_bg := t.colors.normal_bg.getD "#111111"
          normal_fg := t.colors.normal_fg.getD "#eeeeee"
          focus_border := t.colors.focus_border.getD "#6666ff"
          focus_bg := t.colors.focus_bg.getD "#6666ff"
          focus_fg := t.colors.focus_fg.getD "#ffffff"
          statusbar_default_position :=
            statusbar_position_of (t.statusbar.position.getD "top")
          layouts := layouts
          mwfact := t.layouts.mwfact.getD (1 / 2)
          nmaster := t.layouts.nmaster.getD 1
          ncol := t.layouts.ncol.getD 1
          rules := t.rules.map bind_rule
          tags := tags
          modkey := modkey
          numlockmask := get_numlockmask modmap numlock_keycode
          keys := keys })

/- A concrete configuration tree with every optional field absent, one
   resolvable layout and one tag (the two sections whose emptiness is
   fatal), and a trivial modifier keymap; used to exercise the binder on a
   closed input. -/

def example_tree : CfgTree :=
  { general := { border := none, snap := none, resize_hints := none,
                 opacity_unfocused := none, focus_move_pointer := none, font := none }
    colors := { normal_border := none, normal_bg := none, normal_fg := none,
                focus_border := none, focus_bg := none, focus_fg := none }
    statusbar := { position := none }
    tags := [{ title := "one", layout := none }]
    layouts := { layout := [{ title := "tile", symbol := none }],
                 mwfact := none, nmaster := none, ncol := none }
    rules := []
    keys := { modkey := none, key := [] } }

def example_modmap : XModifierKeymap :=
  { max_keypermod := 1, modifiermap := fun _ => 0 }

/- The runtime configuration example_tree binds to: every field at its
   schema default. -/

def example_conf : awesome_config :=
  { borderpx := 1
    snap := 8
    resize_hints := false
    opacity_unfocused := 100
    focus_move_pointer := false
    font := "mono-12"
    normal_border := "#111111"
    normal_bg := "#111111"
    normal_fg := "#eeeeee"
    focus_border := "#6666ff"
    focus_bg := "#6666ff"
    focus_fg := "#ffffff"
    statusbar_default_position := BarPosition.BarTop
    layouts := [{ symbol := some "???", arrange := some LayoutFunc.layout_tile }]
    mwfact := 1 / 2
    nmaster := 1
    ncol := 1
    rules := []
    tags := [{ name := "one", selected := true, was_selected := true, layout := 0 }]
    modkey := Mod4Mask
    numlockmask := 0
    keys := [] }

/- ------------------------------------------------------------------ -/
/- Helper lemmas. -/

/- On a non-NULL argument, key_mask_lookup is the first-match scan over
   KeyModList (some = defined in-table result, none = the scan leaves the
   table). -/

theorem key_mask_lookup_eq_find (s : String) :
    key_mask_lookup (some s) =
      (KeyModList.find? (fun e => e.1 == s)).map (fun e => e.2) := by
  simp only [key_mask_lookup]
  cases h : KeyModList.find? (fun e => e.1 == s) <;> simp [h]

/- A take of a strictly longer bound equals a shorter list only when the
   whole lists are equal. -/

theorem take_eq_of_lt_length {α : Type} {t l : List α} {n : Nat} (hlen : l.length < n) :
    t.take n = l ↔ t = l := by
  constructor
  · intro h
    have hmin := congrArg List.length h
    rw [List.length_take] at hmin
    have ht : t.length ≤ n := by omega
    rw [List.take_of_length_le ht] at h
    exact h
  · intro h
    subst h
    exact List.take_of_length_le (by omega)

/- First-match characterisation of List.find?. -/

theorem find?_first_iff {α : Type} (p : α → Bool) :
    ∀ (l : List α) (a : α),
      l.find? p = some a ↔
        ∃ i : Nat, l[i]? = some a ∧ p a = true ∧
          ∀ j : Nat, j < i → ∃ b, l[j]? = some b ∧ p b = false := by
  intro l
  induction l with
  | nil =>
    intro a
    simp
  | cons x xs ih =>
    intro a
    by_cases hx : p x
    · rw [List.find?_cons_of_pos _ hx]
      constructor
      · intro h
        have hax : x = a := by
          injection h
        refine ⟨0, ?_, ?_, ?_⟩
        · simp [hax]
        · rw [← hax]; exact hx
        · intro j hj; omega
      · rintro ⟨i, hi, hpa, hfirst⟩
        cases i with
        | zero =>
          simp only [List.getElem?_cons_zero] at hi
          injection hi with hi
          rw [hi]
        | succ k =>
          have h0 := hfirst 0 (Nat.succ_pos k)
          rcases h0 with ⟨b, hb, hpb⟩
          simp only [List.getElem?_cons_zero] at hb
          injection hb with hb
          rw [hb] at hx
          rw [hx] at hpb
          simp at hpb
    · rw [List.find?_cons_of_neg _ hx]
      rw [ih a]
      constructor
      · rintro ⟨i, hi, hpa, hfirst⟩
        refine ⟨i + 1, ?_, hpa, ?_⟩
        · simpa using hi
        · intro j hj
          cases j with
          | zero =>
            refine ⟨x, by simp, ?_⟩
            simpa using hx
          | succ k =>
            have := hfirst k (by omega)
            simpa using this
      · rintro ⟨i, hi, hpa, hfirst⟩
        cases i with
        | zero =>
          simp only [List.getElem?_cons_zero] at hi
          injection hi with hi
          rw [← hi] at hpa
          exact absurd hpa hx
        | succ k =>
          refine ⟨k, by simpa using hi, hpa, ?_⟩
          intro j hj
          have := hfirst (j + 1) (by omega)
          simpa using this

/- A fold that either keeps its accumulator or overwrites it with the fixed
   value c produces c exactly when some element passes the test. -/

theorem foldl_overwrite {α β : Type} (p : α → Bool) (c : β) :
    ∀ (l : List α) (acc : β),
      l.foldl (fun m j => if p j then c else m) acc = if l.any p then c else acc := by
  intro l
  induction l with
  | nil => intro acc; rfl
  | cons x xs ih =>
    intro acc
    rw [List.foldl_cons, ih, List.any_cons]
    by_cases hx : p x <;> by_cases hxs : xs.any p <;> simp [hx, hxs]

/- A fold that overwrites its accumulator with g i at each passing element
   ends at g of the last passing element (or at the initial value). -/

theorem foldl_select_getLast {α β : Type} (p : α → Bool) (g : α → β) :
    ∀ (l : List α) (acc : β),
      l.foldl (fun m i => if p i then g i else m) acc =
        match (l.filter p).getLast? with
        | some i => g i
        | none => acc := by
  intro l
  induction l with
  | nil => intro acc; rfl
  | cons x xs ih =>
    intro acc
    rw [List.foldl_cons, ih, List.filter_cons]
    by_cases hx : p x
    · simp only [hx, if_pos, reduceIte]
      rw [List.getLast?_cons]
      cases hlast : (xs.filter p).getLast? <;> simp [hlast]
    · simp [hx]

/- The code's resolver equals the last-match formulation. -/

theorem get_numlockmask_eq_last (modmap : XModifierKeymap) (numlock_keycode : Nat) :
    get_numlockmask modmap numlock_keycode = lockmask_last modmap numlock_keycode := by
  unfold get_numlockmask lockmask_last
  have hinner :
      (List.range 8).foldl
        (fun mask i =>
          (List.range modmap.max_keypermod).foldl
            (fun mask j =>
              if modmap.modifiermap (i * modmap.max_keypermod + j) == numlock_keycode
              then 1 <<< i
              else mask)
            mask)
        0 =
      (List.range 8).foldl
        (fun mask i => if lock_slot_has modmap numlock_keycode i then 1 <<< i else mask)
        0 := by
    apply List.foldl_ext
    intro acc i hi
    rw [foldl_overwrite]
    rfl
  rw [hinner, foldl_select_getLast]
  cases hl : (List.filter (lock_slot_has modmap numlock_keycode) (List.range 8)).getLast? <;>
    rfl

/- strncmp with bound 6 against "off" is exact equality, because "off" is
   strictly shorter than the bound so its terminator takes part. -/

theorem a_strncmp_off_iff (s : String) : a_strncmp_eq s "off" 6 = true ↔ s = "off" := by
  unfold a_strncmp_eq
  rw [beq_iff_eq]
  have hoff : ("off".toList).take 6 = "off".toList := List.take_of_length_le (by decide)
  rw [hoff, take_eq_of_lt_length (by decide)]
  exact String.toList_inj

/- strncmp with bound 6 against "bottom" only compares the first 6
   characters: "bottom" is exactly 6 long, so its terminator is never
   inspected and any extension of "bottom" also passes. -/

theorem a_strncmp_bottom_iff (s : String) :
    a_strncmp_eq s "bottom" 6 = true ↔ s.toList.take 6 = "bottom".toList := by
  unfold a_strncmp_eq
  rw [beq_iff_eq]
  have hb : ("bottom".toList).take 6 = "bottom".toList := List.take_of_length_le (by decide)
  rw [hb]

/-- Claim C4, counterexample: the claim says the resolved enum is Bottom
    exactly when the position string equals "bottom" (exact comparison) and
    Top for every other string; but the code compares with strncmp bound 6,
    so the string "bottoms", though different from "bottom", also resolves
    to BarBot instead of BarTop. -/
theorem c4_statusbar_counterexample :
    statusbar_position_of "bottoms" = BarPosition.BarBot ∧ "bottoms" ≠ "bottom" := by
  constructor
  · decide
  · decide

/-- Claim C4 (amended): the resolved statusbar position is Off exactly when
    the string equals "off"; Bottom exactly when it is not "off" and its
    first 6 characters are exactly "bottom" (so every extension of "bottom"
    also yields Bottom); and Top in every remaining case, including "top",
    "weird" and every unrecognized value. -/
theorem c4_statusbar_position_amended (s : String) :
    (statusbar_position_of s = BarPosition.BarOff ↔ s = "off")
    ∧ (statusbar_position_of s = BarPosition.BarBot ↔
        (s ≠ "off" ∧ s.toList.take 6 = "bottom".toList))
    ∧ (statusbar_position_of s = BarPosition.BarTop ↔
        (s ≠ "off" ∧ s.toList.take 6 ≠ "bottom".toList)) := by
  unfold statusbar_position_of
  by_cases h1 : a_strncmp_eq s "off" 6 = true
  · have hs : s = "off" := (a_strncmp_off_iff s).mp h1
    subst hs
    decide
  · have hns : s ≠ "off" := fun he => h1 ((a_strncmp_off_iff s).mpr he)
    rw [if_neg h1]
    by_cases h2 : a_strncmp_eq s "bottom" 6 = true
    · have hs : s.toList.take 6 = "bottom".toList := (a_strncmp_bottom_iff s).mp h2
      rw [if_pos h2]
      exact ⟨⟨fun h => absurd h (by decide), fun h => absurd h hns⟩,
             ⟨fun _ => ⟨hns, hs⟩, fun _ => rfl⟩,
             ⟨fun h => absurd h (by decide), fun hc => absurd hs hc.2⟩⟩
    · have hnb : s.toList.take 6 ≠ "bottom".toList :=
        fun he => h2 ((a_strncmp_bottom_iff s).mpr he)
      rw [if_neg h2]
      exact ⟨⟨fun h => absurd h (by decide), fun h => absurd h hns⟩,
             ⟨fun h => absurd h (by decide), fun hc => absurd hc.2 hnb⟩,
             ⟨fun _ => ⟨hns, hnb⟩, fun _ => rfl⟩⟩

/-- Claim C4 witness: the spec's own test vectors, obtained from the amended
    theorem at the concrete strings "bottom", "off" and "weird". -/
theorem c4_statusbar_position_amended_witness :
    statusbar_position_of "bottom" = BarPosition.BarBot
    ∧ statusbar_position_of "off" = BarPosition.BarOff
    ∧ statusbar_position_of "weird" = BarPosition.BarTop :=
  ⟨((c4_statusbar_position_amended "bottom").2.1).mpr ⟨by decide, by decide⟩,
   ((c4_statusbar_position_amended "off").1).mpr (by decide),
   ((c4_statusbar_position_amended "weird").2.2).mpr ⟨by decide, by decide⟩⟩

/-- Claim C5, counterexample: the claim says the secondary-lock resolver
    returns the bit of the FIRST modifier index containing the lock key
    code; on a keymap where every one of the 8 modifier indices holds key
    code 42 (one key per modifier), the first-match reading gives bit 1
    (index 0), but the code, which keeps overwriting its mask without
    breaking out of the scan, returns 128 (index 7). -/
theorem c5_lockmask_counterexample :
    get_numlockmask { max_keypermod := 1, modifiermap := fun _ => 42 } 42 = 128
    ∧ spec_lockmask_first { max_keypermod := 1, modifiermap := fun _ => 42 } 42 = 1
    ∧ (128 : Nat) ≠ 1 := by
  refine ⟨by decide, by decide, by decide⟩

/-- Claim C5 (amended): for every keyboard modifier mapping, the
    secondary-lock resolver returns the bit of the LAST modifier index
    (scanning indices in increasing order) whose slot contains the key code
    bound to the lock function, and returns 0 when no modifier index
    contains that key code -- stated as equality with the
    filter/getLast? formulation lockmask_last. -/
theorem c5_lockmask_last_amended (modmap : XModifierKeymap) (numlock_keycode : Nat) :
    get_numlockmask modmap numlock_keycode = lockmask_last modmap numlock_keycode :=
  get_numlockmask_eq_last modmap numlock_keycode

/-- Claim C10: for every keyboard modifier mapping, the mask returned by
    get_numlockmask is either 0 or has exactly one bit set: it is 1 shifted
    by some modifier index below 8, never the union of two such bits. -/
theorem c10_lockmask_single_bit (modmap : XModifierKeymap) (numlock_keycode : Nat) :
    get_numlockmask modmap numlock_keycode = 0
    ∨ ∃ i : Nat, i < 8 ∧ get_numlockmask modmap numlock_keycode = 1 <<< i := by
  rw [get_numlockmask_eq_last]
  unfold lockmask_last
  cases hl : (List.filter (lock_slot_has modmap numlock_keycode) (List.range 8)).getLast? with
  | none => left; rfl
  | some i =>
    right
    refine ⟨i, ?_, rfl⟩
    have hmem := List.mem_of_getLast?_eq_some hl
    rw [List.mem_filter] at hmem
    exact List.mem_range.mp hmem.1

/- First-match characterisation of the table scan shared by the three
   registries: the Option-valued lookup yields some f exactly when some
   entry holds (s, f) and every earlier entry has a different name. -/

theorem lookup_table_first_iff {α : Type} (list : List (String × α)) (s : String) (f : α) :
    (list.find? (fun e => e.1 == s)).map (fun e => e.2) = some f ↔
      ∃ i : Nat, ∃ e : String × α, list[i]? = some e ∧ e.1 = s ∧ e.2 = f ∧
        ∀ j : Nat, j < i → ∃ d, list[j]? = some d ∧ d.1 ≠ s := by
  constructor
  · intro h
    rcases Option.map_eq_some'.mp h with ⟨e, hfind, hef⟩
    rcases (find?_first_iff (fun e => e.1 == s) list e).mp hfind with ⟨i, hi, hpe, hfirst⟩
    refine ⟨i, e, hi, ?_, hef, ?_⟩
    · exact beq_iff_eq.mp hpe
    · intro j hj
      rcases hfirst j hj with ⟨d, hd, hpd⟩
      refine ⟨d, hd, ?_⟩
      simpa using hpd
  · rintro ⟨i, e, hi, hes, hef, hfirst⟩
    have hfind : list.find? (fun e => e.1 == s) = some e := by
      rw [find?_first_iff]
      refine ⟨i, hi, ?_, ?_⟩
      · simpa using hes
      · intro j hj
        rcases hfirst j hj with ⟨d, hd, hds⟩
        refine ⟨d, hd, ?_⟩
        simpa using hds
    rw [hfind, Option.map_some']
    rw [hef]

/-- Claim C6 (code bug): the claim -- matching name_func_lookup's and
    key_mask_lookup's own doc comments -- promises a defined negative
    result (none / 0) whenever the name is null, empty, or matches no table
    entry, for all three registries.  The layout and command registries
    honour it: their tables are NULL-sentinel-terminated and this theorem
    proves the full contract for name_func_lookup (null, unmatched and
    empty names give none; otherwise the first case-sensitively equal entry
    in declaration order wins).  The modifier registry does not: its table
    (KeyModList, config.c lines 59-70) lacks the NULL sentinel that the
    scan of lines 136-138 terminates on, so only the NULL argument (0) and
    the in-table first-match results are defined, and an unmatched or empty
    name sends the scan past the table -- an out-of-bounds read, not a
    guaranteed negative result.  The final conjuncts evaluate the embedding
    there: key_mask_lookup has no defined result exactly on the unmatched
    names, the empty name included. -/
theorem c6_registry_resolution :
    (∀ (α : Type) (list : List (String × α)), name_func_lookup none list = none)
    ∧ (∀ (α : Type) (list : List (String × α)) (s : String),
        (∀ e ∈ list, e.1 ≠ s) → name_func_lookup (some s) list = none)
    ∧ (∀ (α : Type) (list : List (String × α)) (s : String) (f : α),
        name_func_lookup (some s) list = some f ↔
          ∃ i : Nat, ∃ e : String × α, list[i]? = some e ∧ e.1 = s ∧ e.2 = f ∧
            ∀ j : Nat, j < i → ∃ d, list[j]? = some d ∧ d.1 ≠ s)
    ∧ name_func_lookup (some "") LayoutsList = none
    ∧ name_func_lookup (some "") KeyfuncList = none
    ∧ key_mask_lookup none = some 0
    ∧ (∀ (s : String) (m : Nat),
        key_mask_lookup (some s) = some m ↔
          ∃ i : Nat, ∃ e : String × Nat, KeyModList[i]? = some e ∧ e.1 = s ∧ e.2 = m ∧
            ∀ j : Nat, j < i → ∃ d, KeyModList[j]? = some d ∧ d.1 ≠ s)
    ∧ (∀ s : String, key_mask_lookup (some s) = none ↔ ∀ e ∈ KeyModList, e.1 ≠ s)
    ∧ key_mask_lookup (some "") = none := by
  refine ⟨fun α list => rfl, ?_, ?_, by decide, by decide, rfl, ?_, ?_, by decide⟩
  · intro α list s h
    simp only [name_func_lookup, Option.map_eq_none']
    rw [List.find?_eq_none]
    intro x hx
    simp only [beq_iff_eq]
    exact h x hx
  · intro α list s f
    simp only [name_func_lookup]
    exact lookup_table_first_iff list s f
  · intro s m
    rw [key_mask_lookup_eq_find]
    exact lookup_table_first_iff KeyModList s m
  · intro s
    rw [key_mask_lookup_eq_find]
    simp only [Option.map_eq_none']
    rw [List.find?_eq_none]
    constructor
    · intro h e he
      have := h e he
      simpa using this
    · intro h e he
      simpa using h e he

/-- Claim C6 witness: concrete instances.  The unknown name "bogus" and the
    case-mismatched "Tile" resolve to nothing in the sentinel-terminated
    layout registry; "spawn" resolves to its command capability through the
    first-match characterisation; in the modifier registry "Shift" has the
    defined in-table result while "bogus", matching no entry, has no
    defined result (the out-of-bounds path). -/
theorem c6_registry_resolution_witness :
    name_func_lookup (some "bogus") LayoutsList = none
    ∧ name_func_lookup (some "spawn") KeyfuncList = some Uicb.uicb_spawn
    ∧ name_func_lookup (some "Tile") LayoutsList = none
    ∧ key_mask_lookup (some "Shift") = some ShiftMask
    ∧ key_mask_lookup (some "bogus") = none :=
  ⟨c6_registry_resolution.2.1 LayoutFunc LayoutsList "bogus" (by decide),
   (c6_registry_resolution.2.2.1 Uicb KeyfuncList "spawn" Uicb.uicb_spawn).mpr
     ⟨0, ("spawn", Uicb.uicb_spawn), by decide, rfl, rfl,
      fun j hj => absurd hj (Nat.not_lt_zero j)⟩,
   c6_registry_resolution.2.1 LayoutFunc LayoutsList "Tile" (by decide),
   (c6_registry_resolution.2.2.2.2.2.2.1 "Shift" ShiftMask).mpr
     ⟨0, ("Shift", ShiftMask), by decide, rfl, rfl,
      fun j hj => absurd hj (Nat.not_lt_zero j)⟩,
   (c6_registry_resolution.2.2.2.2.2.2.2.1 "bogus").mpr (by decide)⟩

/-- Claim C7, counterexample: the modifier registry successfully resolves
    the name "None" (it is a table entry, found in bounds) to the zero
    mask, yet the bound primary modifier for keys.modkey = "None" is
    Mod4Mask, not the resolution result 0 -- so the bound value does not
    always equal the result of a successful resolution, contrary to the
    claim. -/
theorem c7_modkey_counterexample :
    key_mask_lookup (some "None") = some 0
    ∧ modkey_bind "None" = some Mod4Mask
    ∧ Mod4Mask ≠ 0 :=
  ⟨by decide, by decide, by decide⟩

/-- Claim C7 (amended): the bound primary modifier equals the result of
    resolving the keys.modkey string against the modifier registry when
    that resolution succeeds with a non-zero mask; when it succeeds with
    the zero mask (the "None" entry), the primary modifier is the
    hard-coded Mod4Mask default and binding continues (non-fatal); when no
    table entry matches, the lookup's scan overruns the sentinel-less
    modifier table and the bound primary modifier has no defined value at
    all (so no Mod4 fallback is guaranteed on that path). -/
theorem c7_modkey_fallback_amended (s : String) :
    (∀ m : Nat, key_mask_lookup (some s) = some m → m ≠ 0 → modkey_bind s = some m)
    ∧ (key_mask_lookup (some s) = some 0 → modkey_bind s = some Mod4Mask)
    ∧ (key_mask_lookup (some s) = none → modkey_bind s = none) := by
  refine ⟨?_, ?_, ?_⟩
  · intro m hm hm0
    simp only [modkey_bind, hm, Option.map_some']
    simp [hm0]
  · intro h
    simp only [modkey_bind, h, Option.map_some']
    simp
  · intro h
    simp [modkey_bind, h]

/-- Claim C7 witness: the amended theorem at the resolvable non-zero name
    "Shift" and at the zero-resolving name "None", both found within the
    table. -/
theorem c7_modkey_fallback_amended_witness :
    modkey_bind "Shift" = some ShiftMask ∧ modkey_bind "None" = some Mod4Mask :=
  ⟨(c7_modkey_fallback_amended "Shift").1 ShiftMask (by decide) (by decide),
   (c7_modkey_fallback_amended "None").2.1 (by decide)⟩

/-- Claim C9, counterexample: the claim says a resolution that succeeds
    with the zero mask is indistinguishable from a failed resolution and
    triggers the Mod4 fallback; but the two are distinguishable.  Resolving
    "None" succeeds in bounds with mask 0 and binds the defined fallback
    Mod4Mask, while resolving "bogus" matches no entry of the sentinel-less
    table, so the scan leaves it and the binding has no defined result at
    all -- the fallback is not guaranteed on the failed path. -/
theorem c9_modkey_zero_counterexample :
    key_mask_lookup (some "None") = some 0
    ∧ modkey_bind "None" = some Mod4Mask
    ∧ key_mask_lookup (some "bogus") = none
    ∧ modkey_bind "bogus" = none
    ∧ modkey_bind "None" ≠ modkey_bind "bogus" :=
  ⟨by decide, by decide, by decide, by decide, by decide⟩

/-- Claim C9 (amended): when the modifier registry resolves the keys.modkey
    scalar within its table to the zero mask (as it does for "None"), the
    bound primary modifier is the Mod4Mask default bit -- a zero-valued
    success triggers the fallback; a resolution that matches no table
    entry, by contrast, overruns the sentinel-less table and leaves the
    bound primary modifier undefined, so zero-valued success is not
    equivalent to failed resolution. -/
theorem c9_modkey_zero_resolution (s : String) :
    (key_mask_lookup (some s) = some 0 → modkey_bind s = some Mod4Mask)
    ∧ (key_mask_lookup (some s) = none → modkey_bind s = none) := by
  constructor
  · intro h
    simp [modkey_bind, h]
  · intro h
    simp [modkey_bind, h]

/-- Claim C9 witness: the scalar "None" resolves in bounds to the zero mask
    and the bound primary modifier is the defined Mod4Mask fallback, while
    the unmatched scalar "fake" leaves the binding undefined. -/
theorem c9_modkey_zero_resolution_witness :
    modkey_bind "None" = some Mod4Mask ∧ modkey_bind "fake" = none :=
  ⟨(c9_modkey_zero_resolution "None").1 (by decide),
   (c9_modkey_zero_resolution "fake").2 (by decide)⟩

/- A successful layouts-stage binding returns exactly the per-entry map. -/

theorem bind_layouts_checked_ok (ls : List CfgLayoutSec) (L : List Layout)
    (h : bind_layouts_checked ls = Except.ok L) : L = bind_layouts ls := by
  unfold bind_layouts_checked at h
  by_cases h0 : ls.length = 0
  · rw [if_pos h0] at h
    cases h
  · rw [if_neg h0] at h
    cases hh : (bind_layouts ls).head? with
    | none =>
      rw [hh] at h
      cases h
    | some l0 =>
      rw [hh] at h
      have h2 : (if l0.arrange = none
          then Except.error "awesome: fatal: no default layout available"
          else Except.ok (bind_layouts ls)) = Except.ok L := h
      by_cases ha : l0.arrange = none
      · rw [if_pos ha] at h2
        cases h2
      · rw [if_neg ha] at h2
        injection h2 with h2
        exact h2.symm

/-- Claim C1: for every layouts section, the bound layouts sequence has
    exactly one entry per layout sub-section, in order (its length matches
    and entry i is determined by sub-section i); an entry whose title does
    not resolve against the layout registry is retained at its index with
    arrange = none and symbol = none while binding continues; and the
    layouts binding stage is fatal exactly when the sequence is empty or
    the first entry's arrange is none, regardless of how many other entries
    resolved. -/
theorem c1_layouts_binding (ls : List CfgLayoutSec) :
    (bind_layouts ls).length = ls.length
    ∧ (∀ (i : Nat) (sec : CfgLayoutSec), ls[i]? = some sec →
        (name_func_lookup (some sec.title) LayoutsList = none →
          (bind_layouts ls)[i]? = some { symbol := none, arrange := none })
        ∧ (∀ f : LayoutFunc, name_func_lookup (some sec.title) LayoutsList = some f →
          (bind_layouts ls)[i]? =
            some { symbol := some (sec.symbol.getD "???"), arrange := some f }))
    ∧ ((∃ e, bind_layouts_checked ls = Except.error e) ↔
        (ls = [] ∨ ∃ l0, (bind_layouts ls).head? = some l0 ∧ l0.arrange = none))
    ∧ (∀ L, bind_layouts_checked ls = Except.ok L → L = bind_layouts ls) := by
  refine ⟨by simp [bind_layouts], ?_, ?_, fun L h => bind_layouts_checked_ok ls L h⟩
  · intro i sec hi
    have hbi : (bind_layouts ls)[i]? = some (bind_layout_entry sec) := by
      simp [bind_layouts, List.getElem?_map, hi]
    constructor
    · intro hnone
      rw [hbi]
      unfold bind_layout_entry
      rw [hnone]
    · intro f hf
      rw [hbi]
      unfold bind_layout_entry
      rw [hf]
  · constructor
    · rintro ⟨e, he⟩
      unfold bind_layouts_checked at he
      by_cases h0 : ls.length = 0
      · left
        exact List.length_eq_zero.mp h0
      · rw [if_neg h0] at he
        cases hh : (bind_layouts ls).head? with
        | none =>
          exfalso
          have hnil : bind_layouts ls = [] := List.head?_eq_none_iff.mp hh
          have hlen := congrArg List.length hnil
          simp [bind_layouts] at hlen
          exact h0 (by simp [hlen])
        | some l0 =>
          rw [hh] at he
          have he2 : (if l0.arrange = none
              then Except.error "awesome: fatal: no default layout available"
              else Except.ok (bind_layouts ls)) = Except.error e := he
          by_cases ha : l0.arrange = none
          · right
            exact ⟨l0, rfl, ha⟩
          · rw [if_neg ha] at he2
            cases he2
    · rintro (h | ⟨l0, hh, ha⟩)
      · subst h
        exact ⟨_, rfl⟩
      · unfold bind_layouts_checked
        by_cases h0 : ls.length = 0
        · rw [if_pos h0]
          exact ⟨_, rfl⟩
        · rw [if_neg h0, hh]
          show ∃ e, (if l0.arrange = none
              then Except.error "awesome: fatal: no default layout available"
              else Except.ok (bind_layouts ls)) = Except.error e
          rw [if_pos ha]
          exact ⟨_, rfl⟩

/-- Claim C1 witness: the spec's own vectors.  With one resolvable entry
    "tile" and one unresolvable entry "bogus", the stage succeeds, the
    sequence has length 2, entry 0 carries the tile capability and entry 1
    is retained with arrange = none and symbol = none; with no entries, or
    with a sole unresolvable entry, the stage is fatal. -/
theorem c1_layouts_binding_witness :
    (bind_layouts [{ title := "tile", symbol := none },
                   { title := "bogus", symbol := none }]).length = 2
    ∧ (bind_layouts [{ title := "tile", symbol := none },
                     { title := "bogus", symbol := none }])[0]? =
        some { symbol := some "???", arrange := some LayoutFunc.layout_tile }
    ∧ (bind_layouts [{ title := "tile", symbol := none },
                     { title := "bogus", symbol := none }])[1]? =
        some { symbol := none, arrange := none }
    ∧ (∃ e, bind_layouts_checked [] = Except.error e)
    ∧ (∃ e, bind_layouts_checked [{ title := "bogus", symbol := none }] = Except.error e) :=
  ⟨((c1_layouts_binding [{ title := "tile", symbol := none },
        { title := "bogus", symbol := none }]).1).trans (by decide),
   ((c1_layouts_binding [{ title := "tile", symbol := none },
        { title := "bogus", symbol := none }]).2.1 0 { title := "tile", symbol := none }
        (by decide)).2 LayoutFunc.layout_tile (by decide),
   ((c1_layouts_binding [{ title := "tile", symbol := none },
        { title := "bogus", symbol := none }]).2.1 1 { title := "bogus", symbol := none }
        (by decide)).1 (by decide),
   ((c1_layouts_binding []).2.2.1).mpr (Or.inl rfl),
   ((c1_layouts_binding [{ title := "bogus", symbol := none }]).2.2.1).mpr
     (Or.inr ⟨{ symbol := none, arrange := none }, by decide, rfl⟩)⟩

/-- Claim C2: for every tags section, binding is fatal exactly when the
    section has no tag sub-section; otherwise it succeeds with one tag per
    sub-section, tag 0 selected and was_selected, every other tag with both
    flags false, every tag's layout reference pointing at layouts index 0,
    and each tag named by its sub-section title. -/
theorem c2_tags_binding (ts : List CfgTagSec) :
    (ts = [] → ∃ e, bind_tags_checked ts = Except.error e)
    ∧ (ts ≠ [] → ∃ tags, bind_tags_checked ts = Except.ok tags
        ∧ tags.length = ts.length
        ∧ (∃ t0, tags[0]? = some t0 ∧ t0.selected = true ∧ t0.was_selected = true)
        ∧ (∀ i : Nat, 0 < i → ∀ tg, tags[i]? = some tg →
            tg.selected = false ∧ tg.was_selected = false)
        ∧ (∀ (i : Nat) (tg : Tag), tags[i]? = some tg → tg.layout = 0)
        ∧ (∀ (i : Nat) (sec : CfgTagSec), ts[i]? = some sec →
            ∃ tg, tags[i]? = some tg ∧ tg.name = sec.title)) := by
  cases ts with
  | nil =>
    constructor
    · intro _
      exact ⟨_, rfl⟩
    · intro h
      exact absurd rfl h
  | cons t rest =>
    constructor
    · intro h
      cases h
    · intro _
      refine ⟨{ name := t.title, selected := true, was_selected := true, layout := 0 }
          :: rest.map bind_tag, rfl, by simp,
          ⟨_, List.getElem?_cons_zero, rfl, rfl⟩, ?_, ?_, ?_⟩
      · intro i hi tg htg
        cases i with
        | zero => exact absurd hi (by omega)
        | succ j =>
          rw [List.getElem?_cons_succ, List.getElem?_map] at htg
          cases hr : rest[j]? with
          | none =>
            rw [hr] at htg
            cases htg
          | some sec =>
            rw [hr] at htg
            injection htg with htg
            rw [← htg]
            exact ⟨rfl, rfl⟩
      · intro i tg htg
        cases i with
        | zero =>
          rw [List.getElem?_cons_zero] at htg
          injection htg with htg
          rw [← htg]
        | succ j =>
          rw [List.getElem?_cons_succ, List.getElem?_map] at htg
          cases hr : rest[j]? with
          | none =>
            rw [hr] at htg
            cases htg
          | some sec =>
            rw [hr] at htg
            injection htg with htg
            rw [← htg]
            rfl
      · intro i sec hsec
        cases i with
        | zero =>
          rw [List.getElem?_cons_zero] at hsec
          injection hsec with hsec
          rw [← hsec]
          exact ⟨_, List.getElem?_cons_zero, rfl⟩
        | succ j =>
          rw [List.getElem?_cons_succ] at hsec
          refine ⟨bind_tag sec, ?_, rfl⟩
          rw [List.getElem?_cons_succ, List.getElem?_map, hsec]
          rfl

/-- Claim C2 witness: the spec's vector -- three titled tag entries bind
    successfully, tag 0 has both selection flags set, tags 1 and 2 do not,
    and all three layout references are index 0; an empty tags section is
    fatal. -/
theorem c2_tags_binding_witness :
    (∃ e, bind_tags_checked ([] : List CfgTagSec) = Except.error e)
    ∧ (∃ tags, bind_tags_checked
          [{ title := "one", layout := none }, { title := "two", layout := none },
           { title := "three", layout := none }] = Except.ok tags
        ∧ tags.length = 3
        ∧ (∃ t0, tags[0]? = some t0 ∧ t0.selected = true ∧ t0.was_selected = true)) := by
  constructor
  · exact (c2_tags_binding []).1 rfl
  · rcases (c2_tags_binding
        [{ title := "one", layout := none }, { title := "two", layout := none },
         { title := "three", layout := none }]).2 (by decide) with
      ⟨tags, hok, hlen, hhead, _, _, _⟩
    refine ⟨tags, hok, ?_, hhead⟩
    rw [hlen]
    rfl

/-- Claim C3 (code bug): the claim -- and key_mask_lookup's own doc comment
    ("return Key mask or 0 if not found") -- promises that a modifier name
    resolving to nothing contributes exactly 0 to the bound mask and never
    aborts binding.  But the lookup loop of config.c lines 136-138
    terminates only on an entry whose name is NULL, and KeyModList (lines
    59-70), unlike the other two registry tables, ends with the real entry
    ("None", 0) and carries no NULL sentinel: an unresolved name exhausts
    the table without matching and the scan reads past its end -- undefined
    behaviour (whatever adjacent memory holds, or a crash), not a
    guaranteed 0 contribution.  This theorem evaluates the embedding at the
    failing input: no KeyModList entry is named "bogus"; the lookup, and
    hence the accumulated key modifier mask of any list containing "bogus",
    has no defined result, while a fully resolvable list still ORs its
    bits (the defined path whose arithmetic the claim describes). -/
theorem c3_key_modifier_mask :
    (∀ e ∈ KeyModList, e.1 ≠ "bogus")
    ∧ key_mask_lookup (some "bogus") = none
    ∧ key_mod_mask ["Mod1", "bogus"] = none
    ∧ key_mod_mask ["Mod1", "bogus", "Control"] = none
    ∧ key_mod_mask ["Mod1", "Control"] = some (Mod1Mask ||| ControlMask) :=
  ⟨by decide, by decide, by decide, by decide, by decide⟩

/-- Claim C8: for every config tree in which a given optional field is
    absent, the bound runtime value of that field equals its
    schema-declared default (general.border 1, general.snap 8,
    general.resize_hints false, general.opacity_unfocused 100,
    general.focus_move_pointer false, general.font "mono-12", the six
    colour defaults, statusbar.position "top" hence BarTop, per-layout
    symbol "???", layouts.mwfact 1/2, layouts.nmaster 1, layouts.ncol 1,
    per-rule name "" and tags "" (normalised to none, the binding of the
    empty default) and float false, keys.modkey "Mod4" hence Mod4Mask,
    per-key modkey list containing "Mod4" hence mask Mod4Mask, per-key key
    "None" hence the keysym of "None", per-key command "" hence an
    unresolved (none) handler, per-key arg absent staying none): every
    name the defaults make the binder resolve lies within its table, so the
    whole default path is defined; and
    absence is never observable as distinct from the explicit default:
    binding a tree with a section's fields absent gives the same result as
    binding it with the defaults written out. -/
theorem c8_schema_defaults (t : CfgTree) (modmap : XModifierKeymap) (numlock_keycode : Nat)
    (ksl : String → Nat) (conf : awesome_config)
    (h : parse_config t modmap numlock_keycode ksl = some (Except.ok conf)) :
    (t.general.border = none → conf.borderpx = 1)
    ∧ (t.general.snap = none → conf.snap = 8)
    ∧ (t.general.resize_hints = none → conf.resize_hints = false)
    ∧ (t.general.opacity_unfocused = none → conf.opacity_unfocused = 100)
    ∧ (t.general.focus_move_pointer = none → conf.focus_move_pointer = false)
    ∧ (t.general.font = none → conf.font = "mono-12")
    ∧ (t.colors.normal_border = none → conf.normal_border = "#111111")
    ∧ (t.colors.normal_bg = none → conf.normal_bg = "#111111")
    ∧ (t.colors.normal_fg = none → conf.normal_fg = "#eeeeee")
    ∧ (t.colors.focus_border = none → conf.focus_border = "#6666ff")
    ∧ (t.colors.focus_bg = none → conf.focus_bg = "#6666ff")
    ∧ (t.colors.focus_fg = none → conf.focus_fg = "#ffffff")
    ∧ (t.statusbar.position = none →
        conf.statusbar_default_position = BarPosition.BarTop)
    ∧ (t.layouts.mwfact = none → conf.mwfact = 1 / 2)
    ∧ (t.layouts.nmaster = none → conf.nmaster = 1)
    ∧ (t.layouts.ncol = none → conf.ncol = 1)
    ∧ conf.rules = t.rules.map bind_rule
    ∧ (∀ r : CfgRuleSec,
        (r.name = none → (bind_rule r).prop = "")
        ∧ (r.tags = none → (bind_rule r).tags = none)
        ∧ (r.float = none → (bind_rule r).isfloating = false))
    ∧ conf.layouts = bind_layouts t.layouts.layout
    ∧ (∀ (s : CfgLayoutSec) (f : LayoutFunc),
        name_func_lookup (some s.title) LayoutsList = some f → s.symbol = none →
        bind_layout_entry s = { symbol := some "???", arrange := some f })
    ∧ (t.keys.modkey = none → conf.modkey = Mod4Mask)
    ∧ t.keys.key.mapM (bind_key ksl) = some conf.keys
    ∧ (∀ k : CfgKeySec,
        (k.modkey = none → (bind_key ksl k).map Key.mod = some Mod4Mask)
        ∧ (∀ kb : Key, bind_key ksl k = some kb →
            (k.key = none → kb.keysym = ksl "None")
            ∧ (k.command = none → kb.func = none)
            ∧ (k.arg = none → kb.arg = none)))
    ∧ (∀ t2 : CfgTree,
        parse_config { t2 with general :=
            { border := none, snap := none, resize_hints := none,
              opacity_unfocused := none, focus_move_pointer := none, font := none } }
          modmap numlock_keycode ksl
        = parse_config { t2 with general :=
            { border := some 1, snap := some 8, resize_hints := some false,
              opacity_unfocused := some 100, focus_move_pointer := some false,
              font := some "mono-12" } } modmap numlock_keycode ksl)
    ∧ (∀ t2 : CfgTree,
        parse_config { t2 with colors :=
            { normal_border := none, normal_bg := none, normal_fg := none,
              focus_border := none, focus_bg := none, focus_fg := none } }
          modmap numlock_keycode ksl
        = parse_config { t2 with colors :=
            { normal_border := some "#111111", normal_bg := some "#111111",
              normal_fg := some "#eeeeee", focus_border := some "#6666ff",
              focus_bg := some "#6666ff", focus_fg := some "#ffffff" } }
          modmap numlock_keycode ksl)
    ∧ (∀ t2 : CfgTree,
        parse_config { t2 with statusbar := { position := none } }
          modmap numlock_keycode ksl
        = parse_config { t2 with statusbar := { position := some "top" } }
          modmap numlock_keycode ksl)
    ∧ (∀ t2 : CfgTree,
        parse_config { t2 with layouts :=
            { layout := t2.layouts.layout, mwfact := none, nmaster := none, ncol := none } }
          modmap numlock_keycode ksl
        = parse_config { t2 with layouts :=
            { layout := t2.layouts.layout, mwfact := some (1 / 2), nmaster := some 1,
              ncol := some 1 } } modmap numlock_keycode ksl)
    ∧ (∀ t2 : CfgTree,
        parse_config { t2 with keys := { modkey := none, key := t2.keys.key } }
          modmap numlock_keycode ksl
        = parse_config { t2 with keys := { modkey := some "Mod4", key := t2.keys.key } }
          modmap numlock_keycode ksl)
    ∧ bind_rule { name := none, tags := none, float := none }
        = bind_rule { name := some "", tags := some "", float := some false }
    ∧ (∀ title : String,
        bind_layout_entry { title := title, symbol := none }
        = bind_layout_entry { title := title, symbol := some "???" })
    ∧ (∀ ksl2 : String → Nat,
        bind_key ksl2 { modkey := none, key := none, command := none, arg := none }
        = bind_key ksl2 { modkey := some ["Mod4"], key := some "None",
                          command := some "", arg := none }) := by
  unfold parse_config at h
  cases hL : bind_layouts_checked t.layouts.layout with
  | error e =>
    rw [hL] at h
    simp at h
  | ok L =>
    rw [hL] at h
    cases hT : bind_tags_checked t.tags with
    | error e =>
      rw [hT] at h
      simp at h
    | ok T =>
      rw [hT] at h
      cases hM : modkey_bind (t.keys.modkey.getD "Mod4") with
      | none =>
        rw [hM] at h
        simp at h
      | some mk =>
        rw [hM] at h
        cases hK : t.keys.key.mapM (bind_key ksl) with
        | none =>
          rw [hK] at h
          simp at h
        | some K =>
          rw [hK] at h
          simp only [Option.some.injEq, Except.ok.injEq] at h
          subst h
          refine ⟨?_, ?_, ?_, ?_, ?_, ?_, ?_, ?_, ?_, ?_, ?_, ?_, ?_, ?_, ?_, ?_,
              rfl, ?_, ?_, ?_, ?_, ?_, ?_, ?_, ?_, ?_, ?_, ?_, ?_, ?_, ?_⟩
          · intro hx
            show t.general.border.getD 1 = 1
            simp [hx]
          · intro hx
            show t.general.snap.getD 8 = 8
            simp [hx]
          · intro hx
            show t.general.resize_hints.getD false = false
            simp [hx]
          · intro hx
            show t.general.opacity_unfocused.getD 100 = 100
            simp [hx]
          · intro hx
            show t.general.focus_move_pointer.getD false = false
            simp [hx]
          · intro hx
            show t.general.font.getD "mono-12" = "mono-12"
            simp [hx]
          · intro hx
            show t.colors.normal_border.getD "#111111" = "#111111"
            simp [hx]
          · intro hx
            show t.colors.normal_bg.getD "#111111" = "#111111"
            simp [hx]
          · intro hx
            show t.colors.normal_fg.getD "#eeeeee" = "#eeeeee"
            simp [hx]
          · intro hx
            show t.colors.focus_border.getD "#6666ff" = "#6666ff"
            simp [hx]
          · intro hx
            show t.colors.focus_bg.getD "#6666ff" = "#6666ff"
            simp [hx]
          · intro hx
            show t.colors.focus_fg.getD "#ffffff" = "#ffffff"
            simp [hx]
          · intro hx
            show statusbar_position_of (t.statusbar.position.getD "top") = BarPosition.BarTop
            simp only [hx]
            decide
          · intro hx
            show t.layouts.mwfact.getD (1 / 2) = 1 / 2
            simp [hx]
          · intro hx
            show t.layouts.nmaster.getD 1 = 1
            simp [hx]
          · intro hx
            show t.layouts.ncol.getD 1 = 1
            simp [hx]
          · intro r
            refine ⟨fun hx => ?_, fun hx => ?_, fun hx => ?_⟩
            · show r.name.getD "" = ""
              simp [hx]
            · show (if (r.tags.getD "").length = 0 then none
                  else some (r.tags.getD "")) = (none : Option String)
              simp only [hx]
              decide
            · show r.float.getD false = false
              simp [hx]
          · exact bind_layouts_checked_ok t.layouts.layout L hL
          · intro s f hf hs
            unfold bind_layout_entry
            rw [hf, hs]
            rfl
          · intro hx
            show mk = Mod4Mask
            rw [hx] at hM
            have h64 : modkey_bind ((none : Option String).getD "Mod4") = some Mod4Mask := by
              decide
            rw [h64] at hM
            injection hM with hM
            exact hM.symm
          · rfl
          · intro k
            constructor
            · intro hx
              have h64 : key_mod_mask ["Mod4"] = some Mod4Mask := by decide
              simp [bind_key, hx, h64]
            · intro kb hkb
              simp only [bind_key] at hkb
              rcases Option.map_eq_some'.mp hkb with ⟨m, hm, hkbeq⟩
              subst hkbeq
              refine ⟨fun hx => ?_, fun hx => ?_, fun hx => ?_⟩
              · show ksl (k.key.getD "None") = ksl "None"
                simp [hx]
              · show name_func_lookup (some (k.command.getD "")) KeyfuncList = none
                simp only [hx]
                decide
              · show k.arg = none
                exact hx
          · intro t2
            cases hL2 : bind_layouts_checked t2.layouts.layout <;>
              cases hT2 : bind_tags_checked t2.tags <;>
                simp [parse_config, hL2, hT2]
          · intro t2
            cases hL2 : bind_layouts_checked t2.layouts.layout <;>
              cases hT2 : bind_tags_checked t2.tags <;>
                simp [parse_config, hL2, hT2]
          · intro t2
            cases hL2 : bind_layouts_checked t2.layouts.layout <;>
              cases hT2 : bind_tags_checked t2.tags <;>
                simp [parse_config, hL2, hT2]
          · intro t2
            cases hL2 : bind_layouts_checked t2.layouts.layout <;>
              cases hT2 : bind_tags_checked t2.tags <;>
                simp [parse_config, hL2, hT2]
          · intro t2
            cases hL2 : bind_layouts_checked t2.layouts.layout <;>
              cases hT2 : bind_tags_checked t2.tags <;>
                simp [parse_config, hL2, hT2]
          · rfl
          · intro title
            unfold bind_layout_entry
            cases name_func_lookup (some title) LayoutsList <;> rfl
          · intro ksl2
            rfl

/-- Claim C8 witness: on the concrete tree with every optional field
    absent, binding succeeds and produces exactly the all-defaults runtime
    configuration; the stated field values follow by applying the theorem
    with each absence hypothesis discharged by rfl. -/
theorem c8_schema_defaults_witness :
    parse_config example_tree example_modmap 99 (fun s => s.length)
      = some (Except.ok example_conf)
    ∧ example_conf.borderpx = 1
    ∧ example_conf.snap = 8
    ∧ example_conf.font = "mono-12"
    ∧ example_conf.statusbar_default_position = BarPosition.BarTop
    ∧ example_conf.mwfact = 1 / 2
    ∧ example_conf.modkey = Mod4Mask := by
  have hok : parse_config example_tree example_modmap 99 (fun s => s.length) =
      some (Except.ok example_conf) := by rfl
  obtain ⟨h1, h2, h3, h4, h5, h6, h7, h8, h9, h10, h11, h12, h13, h14, h15, h16,
      h17, h18, h19, h20, h21, h22, h23, hB1, hB2, hB3, hB4, hB5, hB6, hB7, hB8⟩ :=
    c8_schema_defaults example_tree example_modmap 99 (fun s => s.length) example_conf hok
  exact ⟨hok, h1 rfl, h2 rfl, h6 rfl, h13 rfl, h14 rfl, h21 rfl⟩
